import Mathlib

/-!
# Verification of the siq2json2 schema mapper and extractor (src/bin/index.ts)

A shallow embedding of the question-mapping core of `convertToJSON`, the media
dispatch `setQuestionMediaTask`, the archive-entry filename recovery in `unzip`,
and the top-level promise-chain error handling, together with proofs checking
the natural-language specification against them.

Conventions of the embedding:
* JavaScript `parseInt(s, 10)` is modelled by `parseIntJS : String → Option Int`
  where `none` stands for `NaN` (JS `parseInt` never throws).
* The possibly-`undefined` value stored in `q.explanation` is modelled by
  `JSVal` (`undef` or `str`).
* xml2js child-element arrays that the code indexes with `[0]`
  (`question.info[0]`, `question.scenario[0].atom`, `question.right[0].answer`,
  `question.type[0]`) are flattened into the corresponding fields of
  `QuestionData`; xml2js produces a non-empty array whenever the key is present.
* A JavaScript runtime `TypeError` (reading a property of `undefined`) is
  modelled by `Option`: `convertQuestion` returns `none` exactly when the
  scenario atom list is empty, where the source would crash on
  `scenarioDetails[0].$`.
-/

set_option maxHeartbeats 1000000

namespace SiqJson

/-- A JavaScript value that is either a string or `undefined`. -/
inductive JSVal where
  | undef : JSVal
  | str : String → JSVal
deriving DecidableEq, Repr

/-- A `<param>` child of a question's `<type>` node: `$.name` and text `_`. -/
structure Param where
  name : String
  value : String
deriving DecidableEq, Repr

/-- The question's `<type>` node (`question.type[0]`): attribute `$.name` and
the `param` child array; `param := none` models the case where
`Array.isArray(question.type[0].param)` is false (key absent). -/
structure TypeNode where
  name : String
  param : Option (List Param)
deriving DecidableEq, Repr

/-- The question's `<info>` block (`question.info[0]`) with its comment list. -/
structure InfoBlock where
  comments : List String
deriving DecidableEq, Repr

/-- A structured scenario atom (`SIGame.MediaScenario`): attribute `$.type`
and text content `_`. -/
structure MediaScenario where
  type : String
  value : String
deriving DecidableEq, Repr

/-- One scenario atom of `question.scenario[0].atom`: either a plain literal
string (`typeof scenarioDetails[i] === 'string'`) or a structured media entry. -/
inductive Atom where
  | str : String → Atom
  | media : MediaScenario → Atom
deriving DecidableEq, Repr

/-- The source question node (`SIGame.QuestionData`), with the xml2js `[0]`
indexing flattened as described in the module docstring. -/
structure QuestionData where
  price : String
  info : Option InfoBlock
  type : Option TypeNode
  answers : List String
  scenario : List Atom
deriving DecidableEq, Repr

/-- The output `task` record of a question. -/
structure Task where
  text : String
  images : List String
  sounds : List String
  video : List String
deriving DecidableEq, Repr

/-- The output question record built by `convertToJSON` (index.ts lines 90-101). -/
structure Question where
  points : Option Int
  mode : String
  type : String
  answers : List String
  task : Task
  explanation : JSVal
deriving DecidableEq, Repr

/-- Numeric value of a decimal digit list (code point 48 is `0`). -/
def digitsToNat (l : List Char) : Nat :=
  l.foldl (fun acc c => 10 * acc + (c.toNat - 48)) 0

/-- JavaScript `parseInt(s, 10)`: skip leading whitespace, take an optional
sign and then the maximal run of leading decimal digits; `NaN` (modelled
`none`) when that run is empty.  `parseInt` never throws. -/
def parseIntJS (s : String) : Option Int :=
  let cs := s.data.dropWhile (fun c => c = ' ' ∨ c = '\t' ∨ c = '\n' ∨ c = '\r')
  let signAndRest : Int × List Char :=
    match cs with
    | '-' :: r => (-1, r)
    | '+' :: r => (1, r)
    | r => (1, r)
  let ds := signAndRest.2.takeWhile Char.isDigit
  if ds.isEmpty then none
  else some (signAndRest.1 * (digitsToNat ds : Int))

/-- JavaScript `s.replace('@', '')` on a character list: remove the first
occurrence of `'@'` (anywhere in the string), leave the rest untouched. -/
def replaceFirstAt : List Char → List Char
  | [] => []
  | c :: rest => if c = '@' then rest else c :: replaceFirstAt rest

/-- JavaScript `mediaScenario._.replace('@', '')`. -/
def replaceAtSign (s : String) : String :=
  ⟨replaceFirstAt s.data⟩

/-- Split a character list on `'/'` (first argument is the reversed current
segment); helper for the `path.normalize` model. -/
def splitSlash : List Char → List Char → List (List Char)
  | cur, [] => [cur.reverse]
  | cur, '/' :: rest => cur.reverse :: splitSlash [] rest
  | cur, c :: rest => splitSlash (c :: cur) rest

/-- Resolve `.`, `..` and empty segments the way Node's
`path.posix.normalize` does (`allowAbove` is true for relative paths, where
leading `..` segments are kept). The accumulator holds the resolved segments
in reverse. -/
def normSegs : Bool → List String → List String → List String
  | _, acc, [] => acc.reverse
  | allowAbove, acc, seg :: rest =>
    if seg = "" ∨ seg = "." then normSegs allowAbove acc rest
    else if seg = ".." then
      match acc with
      | [] => if allowAbove then normSegs allowAbove [".."] rest
              else normSegs allowAbove [] rest
      | top :: accTail =>
        if top = ".." then normSegs allowAbove (".." :: top :: accTail) rest
        else normSegs allowAbove accTail rest
    else normSegs allowAbove (seg :: acc) rest

/-- Join path segments with `'/'`. -/
def joinSlash : List String → String
  | [] => ""
  | [s] => s
  | s :: rest => s ++ "/" ++ joinSlash rest

/-- Node `path.posix.normalize`, modelled from Node's documented behaviour
(an external collaborator of index.ts): resolve `.`/`..`, collapse repeated
separators, preserve a leading `/` and a trailing separator. -/
def pathNormalize (p : String) : String :=
  if p = "" then "."
  else
    let isAbs := p.data.head? = some '/'
    let trailing := p.data.getLast? = some '/'
    let segs := normSegs (!isAbs) [] ((splitSlash [] p.data).map (fun l => (⟨l⟩ : String)))
    let body := joinSlash segs
    if body = "" then
      if isAbs then "/" else if trailing then "./" else "."
    else
      let body2 := if trailing then body ++ "/" else body
      if isAbs then "/" ++ body2 else body2

/-- JavaScript array indexing `l[i]` where the element may be missing:
`undefined` out of bounds. Embeds `question.info[0].comments[0]`
(index.ts line 105). -/
def jsIndex (l : List String) (i : Nat) : JSVal :=
  match l.get? i with
  | some s => JSVal.str s
  | none => JSVal.undef

/-- The `console.warn` text of index.ts line 151 (including the stray opening
quote of the template literal). -/
def warnMsg (t : String) : String :=
  "Detected unhandled scenario type \"" ++ t ++ ". Please open a ticket to support it"

/-- Embeds `setQuestionMediaTask` (index.ts lines 134-153): dispatch one
structured scenario atom into the question under construction; returns the
updated question together with the list of warnings printed. -/
def setQuestionMediaTask (q : Question) (m : MediaScenario) : Question × List String :=
  if m.type = "image" then
    ({ q with task := { q.task with images := q.task.images ++ [pathNormalize (replaceAtSign m.value)] } }, [])
  else if m.type = "voice" then
    ({ q with task := { q.task with sounds := q.task.sounds ++ [pathNormalize (replaceAtSign m.value)] } }, [])
  else if m.type = "video" then
    ({ q with task := { q.task with video := q.task.video ++ [pathNormalize (replaceAtSign m.value)] } }, [])
  else if m.type = "say" then
    ({ q with explanation := JSVal.str m.value }, [])
  else if m.type = "marker" then
    (q, [])
  else
    (q, [warnMsg m.type])

/-- One iteration of the `for (const scenario of scenarioDetails)` loop
(index.ts lines 161-167): a plain string overwrites `task.text`, a
structured atom goes through `setQuestionMediaTask`. -/
def processAtom (qw : Question × List String) (a : Atom) : Question × List String :=
  match a with
  | Atom.str s => ({ qw.1 with task := { qw.1.task with text := s } }, qw.2)
  | Atom.media m =>
    let r := setQuestionMediaTask qw.1 m
    (r.1, qw.2 ++ r.2)

/-- The whole scenario loop of index.ts lines 161-167. -/
def processAtoms (qw : Question × List String) (atoms : List Atom) : Question × List String :=
  atoms.foldl processAtom qw

/-- The initial question record of index.ts lines 90-101. -/
def initialQuestion (question : QuestionData) : Question :=
  { points := parseIntJS question.price
    mode := "default"
    type := "plain"
    answers := question.answers
    task := { text := "", images := [], sounds := [], video := [] }
    explanation := JSVal.str "" }

/-- Embeds `if (question.info) q.explanation = question.info[0].comments[0]`
(index.ts lines 104-106). -/
def applyInfoStep (question : QuestionData) (q : Question) : Question :=
  match question.info with
  | some i => { q with explanation := jsIndex i.comments 0 }
  | none => q

/-- One iteration of the `for (const param of question.type[0].param)` loop
(index.ts lines 113-124). -/
def applyParam (q : Question) (p : Param) : Question :=
  if p.name = "cost" then { q with points := parseIntJS p.value }
  else if p.name = "theme" then { q with explanation := JSVal.str p.value }
  else q

/-- Embeds the `switch (typeName)` of index.ts lines 107-131: `cat`/`bagcat`
set `mode = delegate` and scan the param array when it is an array; any other
name is copied into `mode` verbatim. -/
def applyTypeStep (question : QuestionData) (q : Question) : Question :=
  match question.type with
  | some t =>
    if t.name = "cat" ∨ t.name = "bagcat" then
      let q2 := { q with mode := "delegate" }
      match t.param with
      | some params => params.foldl applyParam q2
      | none => q2
    else { q with mode := t.name }
  | none => q

/-- Embeds the per-question body of `convertToJSON` (index.ts lines 89-171):
initialisation, info comment, type switch, then scenario resolution
(lines 155-169). `none` models the `TypeError` the source raises on an empty
atom list (`setQuestionMediaTask(scenarioDetails[0])` with
`scenarioDetails[0] === undefined`). -/
def convertQuestion (question : QuestionData) : Option (Question × List String) :=
  let q := applyTypeStep question (applyInfoStep question (initialQuestion question))
  match question.scenario with
  | [Atom.str s] => some ({ q with task := { q.task with text := s } }, [])
  | [Atom.media m] => some (setQuestionMediaTask { q with type := "media" } m)
  | [] => none
  | atoms => some (processAtoms ({ q with type := "media" }, []) atoms)

/-! ## Specification-side definitions

The following definitions restate §4.2 of the specification in its own words
(fixed-order, last-write-wins resolution of `explanation` and `points`,
scenario-driven `type`, ordered media lists).  They are compared with the
code-side `convertQuestion` by the refinement lemmas below. -/

/-- Modelled from the spec: the text of the last `say`-kind scenario entry,
if any (later entries take precedence). -/
def specLastSay : List Atom → Option String
  | [] => none
  | a :: rest =>
    match specLastSay rest with
    | some v => some v
    | none =>
      match a with
      | Atom.media m => if m.type = "say" then some m.value else none
      | _ => none

/-- Modelled from the spec: the last plain literal string entry of the
scenario, if any ("last literal string wins if multiple appear"). -/
def specLastStr : List Atom → Option String
  | [] => none
  | a :: rest =>
    match specLastStr rest with
    | some v => some v
    | none =>
      match a with
      | Atom.str s => some s
      | _ => none

/-- Modelled from the spec: the value of the last parameter named `pname`
in a parameter list. -/
def specLastParam (pname : String) : List Param → Option String
  | [] => none
  | p :: rest =>
    match specLastParam pname rest with
    | some v => some v
    | none => if p.name = pname then some p.value else none

/-- Modelled from the spec: the value of the last `pname` parameter of the
question's type node, provided the type is one of the two category-wager
spellings and carries a parameter array. -/
def specCatParam (pname : String) (d : QuestionData) : Option String :=
  match d.type with
  | some t =>
    if t.name = "cat" ∨ t.name = "bagcat" then
      match t.param with
      | some ps => specLastParam pname ps
      | none => none
    else none
  | none => none

/-- Modelled from the spec: the `explanation` value after step 2 (info
comment), before any later override. -/
def specInfoExplanation (d : QuestionData) : JSVal :=
  match d.info with
  | some i => jsIndex i.comments 0
  | none => JSVal.str ""

/-- Modelled from the spec (§4.2 precedence): a `say` entry overwrites a
category-wager `theme` parameter, which overwrites the info comment, which
overwrites the empty-string default. -/
def specExplanation (d : QuestionData) : JSVal :=
  match specLastSay d.scenario with
  | some v => JSVal.str v
  | none =>
    match specCatParam "theme" d with
    | some v => JSVal.str v
    | none => specInfoExplanation d

/-- Modelled from the spec: a category-wager `cost` parameter overrides the
price attribute; both parsed with JS `parseInt`. -/
def specPoints (d : QuestionData) : Option Int :=
  match specCatParam "cost" d with
  | some v => parseIntJS v
  | none => parseIntJS d.price

/-- Modelled from the spec: `mode` is `delegate` for the two category-wager
spellings, the literal type name for any other declared type, and `default`
when no type is declared. -/
def specMode (d : QuestionData) : String :=
  match d.type with
  | some t => if t.name = "cat" ∨ t.name = "bagcat" then "delegate" else t.name
  | none => "default"

/-- Modelled from the spec: `type` is `plain` exactly when the scenario is a
single plain literal string, `media` otherwise. -/
def specType (d : QuestionData) : String :=
  match d.scenario with
  | [Atom.str _] => "plain"
  | _ => "media"

/-- Modelled from the spec: `task.text` is the last literal string of the
scenario, defaulting to the empty string. -/
def specText (d : QuestionData) : String :=
  (specLastStr d.scenario).getD ""

/-- Modelled from the spec: the ordered list of normalized media paths of a
given kind appearing in the scenario. -/
def specMediaPaths (kind : String) (atoms : List Atom) : List String :=
  atoms.filterMap (fun a =>
    match a with
    | Atom.media m =>
      if m.type = kind then some (pathNormalize (replaceAtSign m.value)) else none
    | _ => none)

/-- Whether a structured scenario kind is one the mapper understands. -/
def knownKind (t : String) : Prop :=
  t = "image" ∨ t = "voice" ∨ t = "video" ∨ t = "say" ∨ t = "marker"

instance (t : String) : Decidable (knownKind t) := by
  unfold knownKind; infer_instance

/-- The ordered list of diagnostics for unrecognized scenario kinds. -/
def specWarnings (atoms : List Atom) : List String :=
  atoms.filterMap (fun a =>
    match a with
    | Atom.media m => if knownKind m.type then none else some (warnMsg m.type)
    | _ => none)

/-- Modelled from the spec: the fully resolved output question. -/
def specQuestion (d : QuestionData) : Question :=
  { points := specPoints d
    mode := specMode d
    type := specType d
    answers := d.answers
    task := { text := specText d
              images := specMediaPaths "image" d.scenario
              sounds := specMediaPaths "voice" d.scenario
              video := specMediaPaths "video" d.scenario }
    explanation := specExplanation d }

/-! ## Archive-entry filename recovery (index.ts lines 51-55)

`decodeURIComponent` is modelled from ECMA-262 (an external collaborator):
a `%` must be followed by two hex digits; escaped octets are assembled into
UTF-8 sequences whose continuation octets must themselves be escaped; any
malformed escape or invalid sequence throws `URIError` (modelled `none`);
unescaped characters pass through unchanged. -/

/-- Hex digit value, by code point ranges (`0`-`9`, `A`-`F`, `a`-`f`). -/
def hexVal (c : Char) : Option Nat :=
  let n := c.toNat
  if 48 ≤ n ∧ n ≤ 57 then some (n - 48)
  else if 65 ≤ n ∧ n ≤ 70 then some (n - 55)
  else if 97 ≤ n ∧ n ≤ 102 then some (n - 87)
  else none

/-- Byte value of two hex digits. -/
def hexByte (h1 h2 : Char) : Option Nat := do
  let a ← hexVal h1
  let b ← hexVal h2
  pure (16 * a + b)

/-- A lexed unit of a URI-encoded string: a literal character or one
percent-escaped octet. -/
inductive UriTok where
  | ch : Char → UriTok
  | byte : Nat → UriTok
deriving DecidableEq, Repr

/-- Lex a character list into literal characters and escaped octets; `none`
when a `%` is not followed by two hex digits. -/
def uriTokens : List Char → Option (List UriTok)
  | [] => some []
  | c :: rest =>
    if c = '%' then
      match rest with
      | h1 :: h2 :: rest2 => do
        let b ← hexByte h1 h2
        let tl ← uriTokens rest2
        pure (UriTok.byte b :: tl)
      | _ => none
    else do
      let tl ← uriTokens rest
      pure (UriTok.ch c :: tl)

/-- Assemble lexed units into characters, decoding escaped octets as UTF-8.
The first argument is the state of a multi-byte sequence in progress:
`some (pending, acc, minCp)` means `pending` continuation octets are still
expected, `acc` is the accumulated value and `minCp` the smallest code point
the sequence is allowed to produce (overlong encodings are rejected). -/
def uriAssemble : Option (Nat × Nat × Nat) → List UriTok → Option (List Char)
  | none, [] => some []
  | none, UriTok.ch c :: rest => (uriAssemble none rest).map (fun l => c :: l)
  | none, UriTok.byte b :: rest =>
    if b < 0x80 then (uriAssemble none rest).map (fun l => Char.ofNat b :: l)
    else if b < 0xC0 then none
    else if b < 0xE0 then uriAssemble (some (1, b - 0xC0, 0x80)) rest
    else if b < 0xF0 then uriAssemble (some (2, b - 0xE0, 0x800)) rest
    else if b < 0xF8 then uriAssemble (some (3, b - 0xF0, 0x10000)) rest
    else none
  | some _, [] => none
  | some _, UriTok.ch _ :: _ => none
  | some (pending, acc, minCp), UriTok.byte b :: rest =>
    if 0x80 ≤ b ∧ b < 0xC0 then
      let acc2 := acc * 0x40 + (b - 0x80)
      if pending ≤ 1 then
        if acc2 < minCp ∨ (0xD800 ≤ acc2 ∧ acc2 < 0xE000) ∨ 0x10FFFF < acc2 then none
        else (uriAssemble none rest).map (fun l => Char.ofNat acc2 :: l)
      else uriAssemble (some (pending - 1, acc2, minCp)) rest
    else none

/-- ECMA-262 `decodeURIComponent`; `none` models a thrown `URIError`. -/
def decodeURIComponent (s : String) : Option String := do
  let toks ← uriTokens s.data
  let cs ← uriAssemble none toks
  pure ⟨cs⟩

/-- One archive entry as seen by the `unzip` entry handler: the parsed path
string, the declared-Unicode flag, and the raw path bytes
(`entry.props.pathBuffer`). -/
structure ZipEntry where
  isUnicode : Bool
  path : String
  pathBuffer : List Nat
deriving DecidableEq, Repr

/-- Embeds the filename recovery of index.ts lines 51-55:
`decodeURIComponent(entry.isUnicode ? entry.path : il.decode(entry.props.pathBuffer, 'cp866'))`.
The iconv-lite cp866 decoder is an external collaborator and is passed in as
`legacyDecode`. -/
def recoverFileName (legacyDecode : List Nat → String) (e : ZipEntry) : Option String :=
  decodeURIComponent (if e.isUnicode then e.path else legacyDecode e.pathBuffer)

/-! ## Top-level promise chain error handling (index.ts lines 196-249) -/

/-- A JavaScript error as observed by the final catch handler: its `code`
property and its `message`. -/
structure JSError where
  code : String
  message : String
deriving DecidableEq, Repr

/-- The observable outcome of one run: what was printed to the error stream
and the process exit code. -/
structure RunOutcome where
  stderr : List String
  exitCode : Nat
deriving DecidableEq, Repr

/-- Embeds the cleanup stage (index.ts lines 236-242): the three deletions are
gathered with `Promise.allSettled`, which never rejects, so the stage always
succeeds regardless of the individual results. -/
def allSettledCleanup (_results : List (Except JSError Unit)) : Except JSError Unit :=
  Except.ok ()

/-- Embeds the final `.catch` handler (index.ts lines 245-249): print a
diagnostic unless `error.code === 'ENOENT'`; in either case nothing sets a
non-zero exit code. -/
def catchHandler (e : JSError) : List String :=
  if e.code = "ENOENT" then [] else ["Failed to parse the file: " ++ e.message]

/-- The diagnostic Node prints to the error stream for an uncaught
exception (the stack trace, summarised here by the error message). -/
def uncaughtMsg (e : JSError) : String :=
  "Uncaught Error: " ++ e.message

/-- Embeds the whole run (index.ts lines 23-249).  The two precondition
checks call `process.exit(1)` with a diagnostic.  During extraction every
entry is piped into `fs.createWriteStream` with NO error listener attached
(line 63), so a write failure on an entry surfaces as an unhandled `error`
event: Node prints the uncaught exception and terminates with exit code 1,
bypassing the promise chain entirely — `entryWriteFailure` models this path.
Otherwise the promise chain (container stream errors rejecting `unzip`,
read, parse, convert, rename — summarised as `mainChain`) followed by the
`allSettled` cleanup feeds the single catch handler of lines 245-249, after
which the process terminates normally with exit code 0. -/
def runPipeline (extensionOk fileExists : Bool) (entryWriteFailure : Option JSError)
    (mainChain : Except JSError Unit)
    (cleanupResults : List (Except JSError Unit)) : RunOutcome :=
  if !extensionOk then { stderr := ["Unsupported file extension"], exitCode := 1 }
  else if !fileExists then { stderr := ["Unable to locate file at <path>"], exitCode := 1 }
  else
    match entryWriteFailure with
    | some e => { stderr := [uncaughtMsg e], exitCode := 1 }
    | none =>
      match mainChain.bind (fun _u => allSettledCleanup cleanupResults) with
      | Except.ok _ => { stderr := [], exitCode := 0 }
      | Except.error e => { stderr := catchHandler e, exitCode := 0 }

/-! ## Concrete instances used in counterexamples and witnesses -/

/-- A question whose single scenario atom is the empty literal string. -/
def singleEmptyString : QuestionData :=
  { price := "100"
    info := none
    type := none
    answers := ["a"]
    scenario := [Atom.str ""] }

/-- The output of `convertQuestion singleEmptyString`. -/
def singleEmptyStringOut : Question :=
  { points := some 100
    mode := "default"
    type := "plain"
    answers := ["a"]
    task := { text := "", images := [], sounds := [], video := [] }
    explanation := JSVal.str "" }

/-- A question whose single scenario atom is the literal string `hello`. -/
def singleHello : QuestionData :=
  { price := "100"
    info := none
    type := none
    answers := ["a"]
    scenario := [Atom.str "hello"] }

/-- The output of `convertQuestion singleHello`. -/
def singleHelloOut : Question :=
  { points := some 100
    mode := "default"
    type := "plain"
    answers := ["a"]
    task := { text := "hello", images := [], sounds := [], video := [] }
    explanation := JSVal.str "" }

/-- The specification's worked precedence example: info comment `hint A`,
wager `theme` parameter `hint B`, `say` entry `hint C`. -/
def hintExample : QuestionData :=
  { price := "100"
    info := some { comments := ["hint A"] }
    type := some { name := "cat", param := some [{ name := "theme", value := "hint B" }] }
    answers := ["a"]
    scenario := [Atom.str "q", Atom.media { type := "say", value := "hint C" }] }

/-- The output of `convertQuestion hintExample`. -/
def hintExampleOut : Question :=
  { points := some 100
    mode := "delegate"
    type := "media"
    answers := ["a"]
    task := { text := "q", images := [], sounds := [], video := [] }
    explanation := JSVal.str "hint C" }

/-- A `bagcat` type node with an unknown parameter, a `cost` and a `theme`. -/
def bagcatType : TypeNode :=
  { name := "bagcat"
    param := some [{ name := "foo", value := "1" },
                   { name := "cost", value := "500" },
                   { name := "theme", value := "T" }] }

/-- A category-wager question priced `100` whose `cost` parameter is `500`. -/
def bagcatExample : QuestionData :=
  { price := "100"
    info := none
    type := some bagcatType
    answers := []
    scenario := [Atom.str "q"] }

/-- The output of `convertQuestion bagcatExample`. -/
def bagcatExampleOut : Question :=
  { points := some 500
    mode := "delegate"
    type := "plain"
    answers := []
    task := { text := "q", images := [], sounds := [], video := [] }
    explanation := JSVal.str "T" }

/-- A question whose price attribute is not a well-formed integer string. -/
def badPriceExample : QuestionData :=
  { price := "not-a-number"
    info := none
    type := none
    answers := []
    scenario := [Atom.str "q"] }

/-- The output of `convertQuestion badPriceExample`: `points` is NaN
(modelled `none`) and no error is raised. -/
def badPriceExampleOut : Question :=
  { points := none
    mode := "default"
    type := "plain"
    answers := []
    task := { text := "q", images := [], sounds := [], video := [] }
    explanation := JSVal.str "" }

/-- A media scenario whose image path carries an interior `@`. -/
def atSignExample : QuestionData :=
  { price := "10"
    info := none
    type := none
    answers := []
    scenario := [Atom.media { type := "image", value := "a@b" },
                 Atom.media { type := "image", value := "c" }] }

/-- The output of `convertQuestion atSignExample`: the interior `@` of `a@b`
has been removed. -/
def atSignExampleOut : Question :=
  { points := some 10
    mode := "default"
    type := "media"
    answers := []
    task := { text := "", images := ["ab", "c"], sounds := [], video := [] }
    explanation := JSVal.str "" }

/-- A two-image scenario whose first path carries a leading `@` marker. -/
def atSignExample2 : QuestionData :=
  { price := "10"
    info := none
    type := none
    answers := []
    scenario := [Atom.media { type := "image", value := "@Images/p.png" },
                 Atom.media { type := "image", value := "q.png" }] }

/-- The output of `convertQuestion atSignExample2`. -/
def atSignExample2Out : Question :=
  { points := some 10
    mode := "default"
    type := "media"
    answers := []
    task := { text := "", images := ["Images/p.png", "q.png"], sounds := [], video := [] }
    explanation := JSVal.str "" }

/-- A structured scenario entry of an unrecognized kind. -/
def weirdMedia : MediaScenario :=
  { type := "weird", value := "z" }

/-- A question containing an unrecognized scenario kind followed by a literal
string entry. -/
def unknownKindExample : QuestionData :=
  { price := "20"
    info := none
    type := none
    answers := []
    scenario := [Atom.media weirdMedia, Atom.str "t"] }

/-- The output of `convertQuestion unknownKindExample`. -/
def unknownKindExampleOut : Question :=
  { points := some 20
    mode := "default"
    type := "media"
    answers := []
    task := { text := "t", images := [], sounds := [], video := [] }
    explanation := JSVal.str "" }

/-- A `cat` type node carrying no parameter array. -/
def catNoParamType : TypeNode :=
  { name := "cat", param := none }

/-- A category-wager question with no parameter array. -/
def noParamExample : QuestionData :=
  { price := "250"
    info := some { comments := ["hint"] }
    type := some catNoParamType
    answers := []
    scenario := [Atom.str "q"] }

/-- The output of `convertQuestion noParamExample`. -/
def noParamExampleOut : Question :=
  { points := some 250
    mode := "delegate"
    type := "plain"
    answers := []
    task := { text := "q", images := [], sounds := [], video := [] }
    explanation := JSVal.str "hint" }

/-- An info block whose comment list is empty. -/
def emptyInfo : InfoBlock :=
  { comments := [] }

/-- A question carrying an info block with an empty comment list. -/
def emptyCommentsExample : QuestionData :=
  { price := "5"
    info := some emptyInfo
    type := none
    answers := []
    scenario := [Atom.str "q"] }

/-- The output of `convertQuestion emptyCommentsExample`: `explanation` is
the JS `undefined` value. -/
def emptyCommentsExampleOut : Question :=
  { points := some 5
    mode := "default"
    type := "plain"
    answers := []
    task := { text := "q", images := [], sounds := [], video := [] }
    explanation := JSVal.undef }

/-- An error whose code is not `ENOENT`. -/
def diskError : JSError :=
  { code := "EACCES", message := "boom" }

/-- A "resource not found" error. -/
def enoentError : JSError :=
  { code := "ENOENT", message := "gone" }

/-- A stand-in legacy decoder for entries that never use it. -/
def nullDecoder : List Nat → String :=
  fun _bs => ""

/-- A valid-Unicode archive entry whose path contains a percent escape. -/
def escapedEntry : ZipEntry :=
  { isUnicode := true, path := "a%20b", pathBuffer := [] }

/-- A valid-Unicode archive entry whose path contains no percent escape. -/
def plainEntry : ZipEntry :=
  { isUnicode := true, path := "abc", pathBuffer := [] }

/-! ## Refinement lemmas: the code-side functions compute the spec-side values -/

theorem processAtoms_cons (qw : Question × List String) (a : Atom) (rest : List Atom) :
    processAtoms qw (a :: rest) = processAtoms (processAtom qw a) rest := rfl

/-- The scenario loop resolves `task.text`, the three media lists, the
`explanation` override and the warning list exactly as §4.2 describes. -/
theorem processAtoms_eq (atoms : List Atom) (q : Question) (w : List String) :
    processAtoms (q, w) atoms =
      ({ q with
          task := { text := (specLastStr atoms).getD q.task.text
                    images := q.task.images ++ specMediaPaths "image" atoms
                    sounds := q.task.sounds ++ specMediaPaths "voice" atoms
                    video := q.task.video ++ specMediaPaths "video" atoms }
          explanation := ((specLastSay atoms).map JSVal.str).getD q.explanation },
        w ++ specWarnings atoms) := by
  induction atoms generalizing q w with
  | nil => simp [processAtoms, specLastStr, specLastSay, specMediaPaths, specWarnings]
  | cons a rest ih =>
    rw [processAtoms_cons]
    cases a with
    | str s =>
      have hpa : processAtom (q, w) (Atom.str s)
          = ({ q with task := { q.task with text := s } }, w) := rfl
      rw [hpa, ih]
      cases hls : specLastStr rest <;> cases hsay : specLastSay rest <;>
        simp [specLastStr, specLastSay, specMediaPaths, specWarnings, hls, hsay]
    | media m =>
      by_cases h1 : m.type = "image"
      · have hpa : processAtom (q, w) (Atom.media m)
            = ({ q with task := { q.task with
                  images := q.task.images ++ [pathNormalize (replaceAtSign m.value)] } }, w) := by
          simp [processAtom, setQuestionMediaTask, h1]
        rw [hpa, ih]
        cases hls : specLastStr rest <;> cases hsay : specLastSay rest <;>
          simp [specLastStr, specLastSay, specMediaPaths, specWarnings, knownKind, h1, hls, hsay,
            List.append_assoc]
      by_cases h2 : m.type = "voice"
      · have hpa : processAtom (q, w) (Atom.media m)
            = ({ q with task := { q.task with
                  sounds := q.task.sounds ++ [pathNormalize (replaceAtSign m.value)] } }, w) := by
          simp [processAtom, setQuestionMediaTask, h1, h2]
        rw [hpa, ih]
        cases hls : specLastStr rest <;> cases hsay : specLastSay rest <;>
          simp [specLastStr, specLastSay, specMediaPaths, specWarnings, knownKind, h1, h2, hls, hsay,
            List.append_assoc]
      by_cases h3 : m.type = "video"
      · have hpa : processAtom (q, w) (Atom.media m)
            = ({ q with task := { q.task with
                  video := q.task.video ++ [pathNormalize (replaceAtSign m.value)] } }, w) := by
          simp [processAtom, setQuestionMediaTask, h1, h2, h3]
        rw [hpa, ih]
        cases hls : specLastStr rest <;> cases hsay : specLastSay rest <;>
          simp [specLastStr, specLastSay, specMediaPaths, specWarnings, knownKind, h1, h2, h3, hls, hsay,
            List.append_assoc]
      by_cases h4 : m.type = "say"
      · have hpa : processAtom (q, w) (Atom.media m)
            = ({ q with explanation := JSVal.str m.value }, w) := by
          simp [processAtom, setQuestionMediaTask, h1, h2, h3, h4]
        rw [hpa, ih]
        cases hls : specLastStr rest <;> cases hsay : specLastSay rest <;>
          simp [specLastStr, specLastSay, specMediaPaths, specWarnings, knownKind, h1, h2, h3, h4,
            hls, hsay]
      by_cases h5 : m.type = "marker"
      · have hpa : processAtom (q, w) (Atom.media m) = (q, w) := by
          simp [processAtom, setQuestionMediaTask, h1, h2, h3, h4, h5]
        rw [hpa, ih]
        cases hls : specLastStr rest <;> cases hsay : specLastSay rest <;>
          simp [specLastStr, specLastSay, specMediaPaths, specWarnings, knownKind, h1, h2, h3, h4, h5,
            hls, hsay]
      · have hpa : processAtom (q, w) (Atom.media m) = (q, w ++ [warnMsg m.type]) := by
          simp [processAtom, setQuestionMediaTask, h1, h2, h3, h4, h5]
        rw [hpa, ih]
        cases hls : specLastStr rest <;> cases hsay : specLastSay rest <;>
          simp [specLastStr, specLastSay, specMediaPaths, specWarnings, knownKind, h1, h2, h3, h4, h5,
            hls, hsay]

/-- The parameter loop of the category-wager branch applies last-write-wins
resolution for `cost` and `theme` and ignores every other parameter. -/
theorem applyParams_eq (ps : List Param) (q : Question) :
    ps.foldl applyParam q =
      { q with
          points := match specLastParam "cost" ps with
                    | some v => parseIntJS v
                    | none => q.points
          explanation := match specLastParam "theme" ps with
                         | some v => JSVal.str v
                         | none => q.explanation } := by
  induction ps generalizing q with
  | nil => simp [specLastParam]
  | cons p rest ih =>
    by_cases hc : p.name = "cost"
    · have hstep : List.foldl applyParam q (p :: rest)
          = List.foldl applyParam { q with points := parseIntJS p.value } rest := by
        simp [applyParam, hc]
      rw [hstep, ih]
      cases hlc : specLastParam "cost" rest <;> cases hlt : specLastParam "theme" rest <;>
        simp [specLastParam, hc, hlc, hlt]
    by_cases ht : p.name = "theme"
    · have hstep : List.foldl applyParam q (p :: rest)
          = List.foldl applyParam { q with explanation := JSVal.str p.value } rest := by
        simp [applyParam, hc, ht]
      rw [hstep, ih]
      cases hlc : specLastParam "cost" rest <;> cases hlt : specLastParam "theme" rest <;>
        simp [specLastParam, hc, ht, hlc, hlt]
    · have hstep : List.foldl applyParam q (p :: rest) = List.foldl applyParam q rest := by
        simp [applyParam, hc, ht]
      rw [hstep, ih]
      cases hlc : specLastParam "cost" rest <;> cases hlt : specLastParam "theme" rest <;>
        simp [specLastParam, hc, ht, hlc, hlt]

/-- The state of the question after the info and type steps, before scenario
resolution: `points`, `mode` and the pre-scenario `explanation` are the
spec-side values; `type` and `task` still hold their defaults. -/
theorem applySteps_eq (d : QuestionData) :
    applyTypeStep d (applyInfoStep d (initialQuestion d)) =
      { points := specPoints d
        mode := specMode d
        type := "plain"
        answers := d.answers
        task := { text := "", images := [], sounds := [], video := [] }
        explanation := match specCatParam "theme" d with
                       | some v => JSVal.str v
                       | none => specInfoExplanation d } := by
  have hinfo : applyInfoStep d (initialQuestion d) =
      { points := parseIntJS d.price
        mode := "default"
        type := "plain"
        answers := d.answers
        task := { text := "", images := [], sounds := [], video := [] }
        explanation := specInfoExplanation d } := by
    cases hi : d.info <;> simp [applyInfoStep, initialQuestion, specInfoExplanation, hi]
  rw [hinfo]
  cases ht : d.type with
  | none => simp [applyTypeStep, specPoints, specMode, specCatParam, ht]
  | some t =>
    by_cases hname : t.name = "cat" ∨ t.name = "bagcat"
    · cases hp : t.param with
      | none =>
        simp [applyTypeStep, specPoints, specMode, specCatParam, ht, hname, hp]
      | some ps =>
        have : applyTypeStep d
            { points := parseIntJS d.price
              mode := "default"
              type := "plain"
              answers := d.answers
              task := { text := "", images := [], sounds := [], video := [] }
              explanation := specInfoExplanation d } =
            ps.foldl applyParam
              { points := parseIntJS d.price
                mode := "delegate"
                type := "plain"
                answers := d.answers
                task := { text := "", images := [], sounds := [], video := [] }
                explanation := specInfoExplanation d } := by
          simp [applyTypeStep, ht, hname, hp]
        rw [this, applyParams_eq]
        cases hlc : specLastParam "cost" ps <;> cases hlt : specLastParam "theme" ps <;>
          simp [specPoints, specMode, specCatParam, ht, hname, hp, hlc, hlt]
    · simp [applyTypeStep, specPoints, specMode, specCatParam, ht, hname]

/-- `convertQuestion` fails only on an empty atom list. -/
theorem convertQuestion_none_iff (d : QuestionData) :
    convertQuestion d = none ↔ d.scenario = [] := by
  unfold convertQuestion
  cases hs : d.scenario with
  | nil => simp
  | cons a rest =>
    cases rest with
    | nil => cases a <;> simp
    | cons b rest2 => simp

/-- Main refinement: on every question node the source can process at all
(non-empty atom list), the code-side `convertQuestion` produces exactly the
spec-side question and warning list. -/
theorem convertQuestion_eq (d : QuestionData) (h : d.scenario ≠ []) :
    convertQuestion d = some (specQuestion d, specWarnings d.scenario) := by
  unfold convertQuestion
  rw [applySteps_eq]
  cases hs : d.scenario with
  | nil => exact absurd hs h
  | cons a rest =>
    cases rest with
    | nil =>
      cases a with
      | str s =>
        simp only []
        unfold specQuestion specType specText
        rw [hs]
        cases hsay : specLastSay [Atom.str s] <;>
          simp_all [specExplanation, specLastSay, specLastStr, specMediaPaths, specWarnings]
      | media m =>
        simp only []
        unfold specQuestion specType specText
        rw [hs]
        have hsingle : setQuestionMediaTask
            { points := specPoints d
              mode := specMode d
              type := "media"
              answers := d.answers
              task := { text := "", images := [], sounds := [], video := [] }
              explanation := match specCatParam "theme" d with
                             | some v => JSVal.str v
                             | none => specInfoExplanation d } m
            = processAtoms
              ({ points := specPoints d
                 mode := specMode d
                 type := "media"
                 answers := d.answers
                 task := { text := "", images := [], sounds := [], video := [] }
                 explanation := match specCatParam "theme" d with
                                | some v => JSVal.str v
                                | none => specInfoExplanation d }, []) [Atom.media m] := by
          simp [processAtoms, processAtom]
        rw [hsingle, processAtoms_eq]
        cases hsay : specLastSay [Atom.media m] <;>
          simp_all [specExplanation, specLastSay, specLastStr, specMediaPaths, specWarnings]
    | cons b rest2 =>
      simp only []
      unfold specQuestion specType specText
      rw [hs, processAtoms_eq]
      cases hsay : specLastSay (a :: b :: rest2) <;>
        simp_all [specExplanation]

theorem specLastStr_append (xs ys : List Atom) :
    specLastStr (xs ++ ys) =
      match specLastStr ys with
      | some v => some v
      | none => specLastStr xs := by
  induction xs with
  | nil => cases h : specLastStr ys <;> simp [specLastStr, h]
  | cons a xs ih =>
    cases h : specLastStr ys <;> cases h2 : specLastStr xs <;>
      simp_all [specLastStr]

theorem specLastSay_append (xs ys : List Atom) :
    specLastSay (xs ++ ys) =
      match specLastSay ys with
      | some v => some v
      | none => specLastSay xs := by
  induction xs with
  | nil => cases h : specLastSay ys <;> simp [specLastSay, h]
  | cons a xs ih =>
    cases h : specLastSay ys <;> cases h2 : specLastSay xs <;>
      simp_all [specLastSay]

theorem specLastStr_cons_media (m : MediaScenario) (l : List Atom) :
    specLastStr (Atom.media m :: l) = specLastStr l := by
  cases h : specLastStr l <;> simp [specLastStr, h]

theorem specLastSay_cons_not_say (m : MediaScenario) (l : List Atom)
    (hm : m.type ≠ "say") :
    specLastSay (Atom.media m :: l) = specLastSay l := by
  cases h : specLastSay l <;> simp [specLastSay, h, hm]

theorem specMediaPaths_cons_other (kind : String) (m : MediaScenario) (l : List Atom)
    (hm : m.type ≠ kind) :
    specMediaPaths kind (Atom.media m :: l) = specMediaPaths kind l := by
  simp [specMediaPaths, hm]

theorem specWarnings_append (xs ys : List Atom) :
    specWarnings (xs ++ ys) = specWarnings xs ++ specWarnings ys := by
  simp [specWarnings, List.filterMap_append]

theorem specMediaPaths_append (kind : String) (xs ys : List Atom) :
    specMediaPaths kind (xs ++ ys) = specMediaPaths kind xs ++ specMediaPaths kind ys := by
  simp [specMediaPaths, List.filterMap_append]

/-- Lexing a string with no `%` yields one literal-character token per
character. -/
theorem uriTokens_no_percent (l : List Char) (hp : '%' ∉ l) :
    uriTokens l = some (l.map UriTok.ch) := by
  induction l with
  | nil => rfl
  | cons c rest ih =>
    have hc : ¬ c = '%' := fun h => hp (h ▸ List.mem_cons_self c rest)
    have hrest : '%' ∉ rest := fun h => hp (List.mem_cons_of_mem c h)
    unfold uriTokens
    rw [if_neg hc, ih hrest]
    rfl

/-- Assembling pure literal-character tokens returns the characters. -/
theorem uriAssemble_chars (l : List Char) :
    uriAssemble none (l.map UriTok.ch) = some l := by
  induction l with
  | nil => rfl
  | cons c rest ih => simp [uriAssemble, ih]

/-- `decodeURIComponent` leaves any string without a `%` unchanged. -/
theorem decodeURIComponent_no_percent (s : String) (hp : '%' ∉ s.data) :
    decodeURIComponent s = some s := by
  unfold decodeURIComponent
  rw [uriTokens_no_percent s.data hp]
  show (uriAssemble none (s.data.map UriTok.ch)).bind (fun cs => some (⟨cs⟩ : String)) = some s
  rw [uriAssemble_chars]
  rfl

/-- A successful conversion implies the scenario atom list was non-empty. -/
theorem convertQuestion_some_ne_nil (d : QuestionData) (q : Question) (w : List String)
    (h : convertQuestion d = some (q, w)) : d.scenario ≠ [] := by
  intro h0
  rw [(convertQuestion_none_iff d).mpr h0] at h
  exact Option.noConfusion h

/-- Every successful conversion result is the spec-side question and warning
list. -/
theorem convertQuestion_some_eq (d : QuestionData) (q : Question) (w : List String)
    (h : convertQuestion d = some (q, w)) :
    q = specQuestion d ∧ w = specWarnings d.scenario := by
  have hne : d.scenario ≠ [] := convertQuestion_some_ne_nil d q w h
  rw [convertQuestion_eq d hne] at h
  injection h with h1
  injection h1 with hq hw
  exact ⟨hq.symm, hw.symm⟩

/-! ## Claim theorems -/

/-- **C1** (amended): for every question node, the question's type is decided
solely by the shape of its scenario entry list: exactly one plain literal
entry gives `type = "plain"`, `task.text` equal to that string (possibly
empty) and `images`/`sounds`/`video` all empty; multiple entries, or a single
structured non-literal entry, give `type = "media"`.  (The original claim's
additional assertion that `task.text` is then non-empty is refuted by
`C1_counterexample`.) -/
theorem C1_type_decided_by_scenario_shape (d : QuestionData) (q : Question)
    (w : List String) (h : convertQuestion d = some (q, w)) :
    (∀ s, d.scenario = [Atom.str s] →
        q.type = "plain" ∧ q.task.text = s ∧ q.task.images = [] ∧
        q.task.sounds = [] ∧ q.task.video = []) ∧
    ((2 ≤ d.scenario.length ∨ (∃ m, d.scenario = [Atom.media m])) → q.type = "media") := by
  obtain ⟨hq, hw⟩ := convertQuestion_some_eq d q w h
  subst hq
  constructor
  · intro s hsc
    refine ⟨?_, ?_, ?_, ?_, ?_⟩ <;>
      simp [specQuestion, specType, specText, specLastStr, specMediaPaths, hsc]
  · rintro (hlen | ⟨m, hm⟩)
    · rcases hsc : d.scenario with _ | ⟨a, rest⟩
      · rw [hsc] at hlen; simp at hlen
      · rcases rest with _ | ⟨b, rest2⟩
        · rw [hsc] at hlen; simp at hlen
        · simp [specQuestion, specType, hsc]
    · simp [specQuestion, specType, hm]

/-- **C1**: counterexample to the original claim — the single plain literal
entry `""` yields `type = "plain"` but an EMPTY `task.text`, refuting the
claimed non-emptiness of `task.text`. -/
theorem C1_counterexample :
    convertQuestion singleEmptyString = some (singleEmptyStringOut, []) ∧
    singleEmptyStringOut.type = "plain" ∧ singleEmptyStringOut.task.text = "" := by
  decide

/-- **C1**: witness instantiating `C1_type_decided_by_scenario_shape` at a
concrete single-plain-string question. -/
theorem C1_witness :
    convertQuestion singleHello = some (singleHelloOut, []) ∧
    (singleHelloOut.type = "plain" ∧ singleHelloOut.task.text = "hello" ∧
      singleHelloOut.task.images = [] ∧ singleHelloOut.task.sounds = [] ∧
      singleHelloOut.task.video = []) :=
  ⟨by decide,
   (C1_type_decided_by_scenario_shape singleHello singleHelloOut [] (by decide)).1
     "hello" (by decide)⟩

/-- **C2**: the final explanation is resolved by last-write-wins precedence
in the fixed order info-comment first, then category-wager `theme` parameter,
then `say` scenario entry: the result always equals `specExplanation`, which
gives the last `say` entry priority over the `theme` parameter, which has
priority over the info comment. -/
theorem C2_explanation_precedence (d : QuestionData) (q : Question) (w : List String)
    (h : convertQuestion d = some (q, w)) :
    q.explanation = specExplanation d := by
  obtain ⟨hq, hw⟩ := convertQuestion_some_eq d q w h
  subst hq
  rfl

/-- **C2**: witness — info comment `hint A`, wager theme `hint B`, say entry
`hint C` yield final explanation `hint C`. -/
theorem C2_witness :
    convertQuestion hintExample = some (hintExampleOut, []) ∧
    hintExampleOut.explanation = specExplanation hintExample ∧
    specExplanation hintExample = JSVal.str "hint C" :=
  ⟨by decide, C2_explanation_precedence hintExample hintExampleOut [] (by decide), by decide⟩

/-- **C3**: a question whose declared type name is `cat` or `bagcat` gets
`mode = "delegate"`, `points` resolved by the last `cost` parameter (parsed
as an integer, overriding the price attribute) and `explanation` resolvable
by the `theme` parameter, every other parameter name being ignored (the
spec-side resolution reads only `cost` and `theme`); any other declared type
name is copied into `mode` verbatim. -/
theorem C3_declared_type_dispatch (d : QuestionData) (q : Question) (w : List String)
    (t : TypeNode) (h : convertQuestion d = some (q, w)) (ht : d.type = some t) :
    ((t.name = "cat" ∨ t.name = "bagcat") →
        q.mode = "delegate" ∧ q.points = specPoints d ∧ q.explanation = specExplanation d) ∧
    (¬(t.name = "cat" ∨ t.name = "bagcat") → q.mode = t.name) := by
  obtain ⟨hq, hw⟩ := convertQuestion_some_eq d q w h
  subst hq
  constructor
  · intro hname
    refine ⟨?_, rfl, rfl⟩
    rcases hname with hn | hn <;> simp [specQuestion, specMode, ht, hn]
  · intro hname
    simp [specQuestion, specMode, ht, hname]

/-- **C3**: witness — price `100` with `cost` parameter `500` yields
`points = 500` and `mode = delegate`; the unknown parameter `foo` is ignored
and the `theme` parameter resolves the explanation. -/
theorem C3_witness :
    convertQuestion bagcatExample = some (bagcatExampleOut, []) ∧
    bagcatExampleOut.mode = "delegate" ∧
    bagcatExampleOut.points = specPoints bagcatExample ∧
    specPoints bagcatExample = some 500 ∧
    specExplanation bagcatExample = JSVal.str "T" :=
  ⟨by decide,
   ((C3_declared_type_dispatch bagcatExample bagcatExampleOut [] bagcatType
       (by decide) rfl).1 (Or.inr rfl)).1,
   ((C3_declared_type_dispatch bagcatExample bagcatExampleOut [] bagcatType
       (by decide) rfl).1 (Or.inr rfl)).2.1,
   by decide, by decide⟩

/-- **C4** (amended): a malformed integer in the price attribute or a
category-wager `cost` parameter does NOT raise a mapping error: JS `parseInt`
returns `NaN` (modelled `none`), conversion still succeeds, and — absent a
well-formed `cost` override — the question is silently produced with the
non-integer `points = NaN`.  (The original claim that such input aborts the
run is refuted by `C4_counterexample`.) -/
theorem C4_malformed_integer_no_abort (d : QuestionData) (h : d.scenario ≠ []) :
    (convertQuestion d).isSome = true ∧
    (∀ q w, convertQuestion d = some (q, w) → parseIntJS d.price = none →
        specCatParam "cost" d = none → q.points = none) := by
  constructor
  · rw [convertQuestion_eq d h]; rfl
  · intro q w hq hp hc
    obtain ⟨hqe, hwe⟩ := convertQuestion_some_eq d q w hq
    subst hqe
    simp [specQuestion, specPoints, hc, hp]

/-- **C4**: counterexample — the price `"not-a-number"` neither raises nor
aborts: conversion succeeds and silently produces `points = NaN` (modelled
`none`), contradicting the claimed fatal mapping error. -/
theorem C4_counterexample :
    convertQuestion badPriceExample = some (badPriceExampleOut, []) ∧
    badPriceExampleOut.points = none := by
  decide

/-- **C4**: witness instantiating `C4_malformed_integer_no_abort` at the
malformed-price question. -/
theorem C4_witness :
    (convertQuestion badPriceExample).isSome = true ∧ badPriceExampleOut.points = none :=
  ⟨(C4_malformed_integer_no_abort badPriceExample (by decide)).1,
   (C4_malformed_integer_no_abort badPriceExample (by decide)).2 badPriceExampleOut []
     (by decide) (by decide) (by decide)⟩

/-- **C5** (amended): the two precondition checks (bad extension, missing
input file) exit non-zero with a diagnostic, and an entry write failure
during extraction — the per-entry write streams of index.ts line 63 carry no
error listener — crashes the process as an uncaught exception, printing a
diagnostic and exiting non-zero without ever reaching the catch handler.
Every failure that does reach the promise chain, however, lands in the
single final catch handler, which prints a diagnostic exactly when the error
code is not `ENOENT` — whatever stage of the chain produced the error, not
only cleanup — and the process then exits 0, not non-zero; the cleanup
results never influence the outcome at all, because the cleanup stage is
gathered with `Promise.allSettled`, which never rejects.  (The original
claim of a non-zero exit on ordinary chain failures is refuted by
`C5_counterexample`.) -/
theorem C5_exit_behavior (ext file : Bool) (wf : Option JSError)
    (chain : Except JSError Unit) (cl cl2 : List (Except JSError Unit)) :
    runPipeline ext file wf chain cl = runPipeline ext file wf chain cl2 ∧
    (∀ e, wf = some e → ext = true → file = true →
        (runPipeline ext file wf chain cl).exitCode = 1 ∧
        (runPipeline ext file wf chain cl).stderr = [uncaughtMsg e]) ∧
    (ext = true → file = true → wf = none →
        (runPipeline ext file wf chain cl).exitCode = 0) ∧
    (∀ e, wf = none → chain = Except.error e →
        ((runPipeline true true wf chain cl).stderr = [] ↔ e.code = "ENOENT")) := by
  refine ⟨rfl, ?_, ?_, ?_⟩
  · intro e hwf he hf
    subst hwf; subst he; subst hf
    constructor <;> simp [runPipeline]
  · intro he hf hwf
    subst he; subst hf; subst hwf
    cases chain <;> simp [runPipeline, allSettledCleanup, Except.bind, catchHandler]
  · intro e hwf hchain
    subst hwf; subst hchain
    by_cases hc : e.code = "ENOENT" <;>
      simp [runPipeline, allSettledCleanup, Except.bind, catchHandler, hc]

/-- **C5**: counterexample — a non-`ENOENT` failure of the promise chain
(after the precondition checks, with no unhandled entry-write crash) prints
a diagnostic but the process exits 0, not non-zero as the claim requires. -/
theorem C5_counterexample :
    (runPipeline true true none (Except.error diskError) []).exitCode = 0 ∧
    (runPipeline true true none (Except.error diskError) []).stderr =
      ["Failed to parse the file: boom"] := by
  decide

/-- **C5**: witness instantiating `C5_exit_behavior`: cleanup results do not
change the outcome; an unhandled entry-write failure exits 1 with a
diagnostic; an `ENOENT` failure of the MAIN chain (not cleanup) is silently
swallowed. -/
theorem C5_witness :
    runPipeline true true none (Except.error enoentError) [] =
      runPipeline true true none (Except.error enoentError) [Except.error diskError] ∧
    ((runPipeline true true (some diskError) (Except.ok ()) []).exitCode = 1 ∧
      (runPipeline true true (some diskError) (Except.ok ()) []).stderr =
        [uncaughtMsg diskError]) ∧
    (runPipeline true true none (Except.error enoentError) []).exitCode = 0 ∧
    ((runPipeline true true none (Except.error enoentError) []).stderr = [] ↔
      enoentError.code = "ENOENT") :=
  ⟨(C5_exit_behavior true true none (Except.error enoentError) []
      [Except.error diskError]).1,
   (C5_exit_behavior true true (some diskError) (Except.ok ()) [] []).2.1 diskError rfl rfl rfl,
   (C5_exit_behavior true true none (Except.error enoentError) [] []).2.2.1 rfl rfl rfl,
   (C5_exit_behavior true true none (Except.error enoentError) [] []).2.2.2 enoentError rfl rfl⟩

/-- **C6** (amended): each structured `image`/`voice`/`video` scenario entry
appends, in scenario order, the entry's text with the FIRST `@` occurrence
(wherever it appears) removed and path separators normalized, to
`task.images`/`task.sounds`/`task.video` respectively.  A leading `@` marker
is thereby stripped, but — contrary to the original claim — an interior `@`
is removed as well rather than preserved (see `C6_counterexample`). -/
theorem C6_media_path_normalization (d : QuestionData) (q : Question) (w : List String)
    (h : convertQuestion d = some (q, w)) :
    q.task.images = specMediaPaths "image" d.scenario ∧
    q.task.sounds = specMediaPaths "voice" d.scenario ∧
    q.task.video = specMediaPaths "video" d.scenario ∧
    (∀ v : String, replaceAtSign ("@" ++ v) = v) := by
  obtain ⟨hq, hw⟩ := convertQuestion_some_eq d q w h
  subst hq
  exact ⟨rfl, rfl, rfl, fun v => rfl⟩

/-- **C6**: counterexample — the image path `a@b` has NO leading `@`, yet the
code removes its interior `@`, appending `ab` where the claim requires
`a@b`. -/
theorem C6_counterexample :
    convertQuestion atSignExample = some (atSignExampleOut, []) ∧
    atSignExampleOut.task.images = ["ab", "c"] ∧
    atSignExampleOut.task.images ≠ ["a@b", "c"] := by
  decide

/-- **C6**: witness instantiating `C6_media_path_normalization` at a concrete
two-image scenario, also showing the paths appear in scenario order. -/
theorem C6_witness :
    convertQuestion atSignExample2 = some (atSignExample2Out, []) ∧
    atSignExample2Out.task.images = specMediaPaths "image" atSignExample2.scenario ∧
    specMediaPaths "image" atSignExample2.scenario = ["Images/p.png", "q.png"] :=
  ⟨by decide,
   (C6_media_path_normalization atSignExample2 atSignExample2Out [] (by decide)).1,
   by decide⟩

/-- **C7** (amended): the `unzip` filename recovery leaves an already-valid
Unicode path unchanged exactly when the path contains no percent escape:
`decodeURIComponent` is applied to Unicode paths too, so any `%`-escape in a
valid Unicode path is decoded (altering it, see `C7_counterexample`), while a
path without `%` is returned unchanged. -/
theorem C7_recovery_identity_without_escapes (legacyDecode : List Nat → String)
    (e : ZipEntry) (hu : e.isUnicode = true) (hp : '%' ∉ e.path.data) :
    recoverFileName legacyDecode e = some e.path := by
  have hsel : (if e.isUnicode then e.path else legacyDecode e.pathBuffer) = e.path := by
    simp [hu]
  unfold recoverFileName
  rw [hsel]
  exact decodeURIComponent_no_percent e.path hp

/-- **C7**: counterexample — the already-valid Unicode path `a%20b` is
altered by the recovery step (to `a b`), refuting the claimed idempotence on
valid names. -/
theorem C7_counterexample :
    recoverFileName nullDecoder escapedEntry = some "a b" ∧
    recoverFileName nullDecoder escapedEntry ≠ some escapedEntry.path := by
  decide

/-- **C7**: witness instantiating `C7_recovery_identity_without_escapes` at a
concrete escape-free Unicode entry. -/
theorem C7_witness :
    plainEntry.isUnicode = true ∧ ('%' ∉ plainEntry.path.data) ∧
    recoverFileName nullDecoder plainEntry = some plainEntry.path :=
  ⟨rfl, by decide,
   C7_recovery_identity_without_escapes nullDecoder plainEntry rfl (by decide)⟩

/-- **C8**: a scenario entry in the media branch whose declared kind is none
of `image`, `voice`, `video`, `say`, `marker` is skipped with a diagnostic
warning and no error: conversion still succeeds, its warning list contains
the diagnostic, and the scenario loop produces exactly the question it would
produce with the entry dropped, the warning list gaining exactly the
diagnostic at the entry's position. -/
theorem C8_unknown_kind_skipped (d : QuestionData) (l1 l2 : List Atom)
    (m : MediaScenario) (q0 : Question) (w0 : List String)
    (hm : ¬ knownKind m.type) (hs : d.scenario = l1 ++ Atom.media m :: l2) :
    (convertQuestion d).isSome = true ∧
    (∀ q w, convertQuestion d = some (q, w) → warnMsg m.type ∈ w) ∧
    (processAtoms (q0, w0) (l1 ++ Atom.media m :: l2)).1
      = (processAtoms (q0, w0) (l1 ++ l2)).1 ∧
    (processAtoms (q0, w0) (l1 ++ Atom.media m :: l2)).2
      = w0 ++ specWarnings l1 ++ warnMsg m.type :: specWarnings l2 := by
  have hne : d.scenario ≠ [] := by rw [hs]; simp
  have himg : m.type ≠ "image" := fun hcon => hm (Or.inl hcon)
  have hvoi : m.type ≠ "voice" := fun hcon => hm (Or.inr (Or.inl hcon))
  have hvid : m.type ≠ "video" := fun hcon => hm (Or.inr (Or.inr (Or.inl hcon)))
  have hnsay : m.type ≠ "say" := fun hcon => hm (Or.inr (Or.inr (Or.inr (Or.inl hcon))))
  have hwarn : specWarnings (Atom.media m :: l2) = warnMsg m.type :: specWarnings l2 := by
    simp [specWarnings, hm]
  refine ⟨?_, ?_, ?_, ?_⟩
  · rw [convertQuestion_eq d hne]; rfl
  · intro q w hq
    obtain ⟨hqe, hwe⟩ := convertQuestion_some_eq d q w hq
    subst hwe
    rw [hs, specWarnings_append, hwarn]
    exact List.mem_append_right _ (List.mem_cons_self _ _)
  · have h1 : specLastStr (l1 ++ Atom.media m :: l2) = specLastStr (l1 ++ l2) := by
      rw [specLastStr_append, specLastStr_cons_media, specLastStr_append]
    have h2 : specLastSay (l1 ++ Atom.media m :: l2) = specLastSay (l1 ++ l2) := by
      rw [specLastSay_append, specLastSay_cons_not_say _ _ hnsay, specLastSay_append]
    have h3 : ∀ kind, m.type ≠ kind →
        specMediaPaths kind (l1 ++ Atom.media m :: l2) = specMediaPaths kind (l1 ++ l2) := by
      intro kind hk
      rw [specMediaPaths_append, specMediaPaths_cons_other _ _ _ hk, specMediaPaths_append]
    rw [processAtoms_eq, processAtoms_eq, h1, h2, h3 _ himg, h3 _ hvoi, h3 _ hvid]
  · rw [processAtoms_eq]
    simp [specWarnings_append, hwarn, List.append_assoc]

/-- **C8**: witness instantiating `C8_unknown_kind_skipped` at a concrete
scenario containing an entry of kind `weird`. -/
theorem C8_witness :
    (convertQuestion unknownKindExample).isSome = true ∧
    warnMsg weirdMedia.type ∈ [warnMsg "weird"] ∧
    (processAtoms (initialQuestion unknownKindExample, [])
        ([] ++ Atom.media weirdMedia :: [Atom.str "t"])).1
      = (processAtoms (initialQuestion unknownKindExample, []) ([] ++ [Atom.str "t"])).1 ∧
    (processAtoms (initialQuestion unknownKindExample, [])
        ([] ++ Atom.media weirdMedia :: [Atom.str "t"])).2
      = [] ++ specWarnings [] ++ warnMsg weirdMedia.type :: specWarnings [Atom.str "t"] :=
  ⟨(C8_unknown_kind_skipped unknownKindExample [] [Atom.str "t"] weirdMedia
      (initialQuestion unknownKindExample) [] (by decide) rfl).1,
   (C8_unknown_kind_skipped unknownKindExample [] [Atom.str "t"] weirdMedia
      (initialQuestion unknownKindExample) [] (by decide) rfl).2.1
     unknownKindExampleOut [warnMsg "weird"] (by decide),
   (C8_unknown_kind_skipped unknownKindExample [] [Atom.str "t"] weirdMedia
      (initialQuestion unknownKindExample) [] (by decide) rfl).2.2.1,
   (C8_unknown_kind_skipped unknownKindExample [] [Atom.str "t"] weirdMedia
      (initialQuestion unknownKindExample) [] (by decide) rfl).2.2.2⟩

/-- **C9**: a `cat`/`bagcat` question whose type node carries no parameter
array does not fail: conversion succeeds, `mode` is still `delegate`, and
`points` and (absent a later `say` override) `explanation` keep the values
established by the earlier steps — the parsed price attribute and the
info-comment value. -/
theorem C9_cat_without_param_array (d : QuestionData) (t : TypeNode)
    (ht : d.type = some t) (hname : t.name = "cat" ∨ t.name = "bagcat")
    (hp : t.param = none) (hs : d.scenario ≠ []) :
    (convertQuestion d).isSome = true ∧
    (∀ q w, convertQuestion d = some (q, w) →
        q.mode = "delegate" ∧ q.points = parseIntJS d.price ∧
        (specLastSay d.scenario = none → q.explanation = specInfoExplanation d)) := by
  constructor
  · rw [convertQuestion_eq d hs]; rfl
  · intro q w hq
    obtain ⟨hqe, hwe⟩ := convertQuestion_some_eq d q w hq
    subst hqe
    rcases hname with hn | hn
    · refine ⟨?_, ?_, ?_⟩
      · simp [specQuestion, specMode, ht, hn]
      · simp [specQuestion, specPoints, specCatParam, ht, hn, hp]
      · intro hsay
        simp [specQuestion, specExplanation, specCatParam, ht, hn, hp, hsay]
    · refine ⟨?_, ?_, ?_⟩
      · simp [specQuestion, specMode, ht, hn]
      · simp [specQuestion, specPoints, specCatParam, ht, hn, hp]
      · intro hsay
        simp [specQuestion, specExplanation, specCatParam, ht, hn, hp, hsay]

/-- **C9**: witness instantiating `C9_cat_without_param_array` at a concrete
`cat` question without a parameter array. -/
theorem C9_witness :
    (convertQuestion noParamExample).isSome = true ∧
    (noParamExampleOut.mode = "delegate" ∧
      noParamExampleOut.points = parseIntJS noParamExample.price ∧
      (specLastSay noParamExample.scenario = none →
        noParamExampleOut.explanation = specInfoExplanation noParamExample)) :=
  ⟨(C9_cat_without_param_array noParamExample catNoParamType rfl (Or.inl rfl) rfl
      (by decide)).1,
   (C9_cat_without_param_array noParamExample catNoParamType rfl (Or.inl rfl) rfl
      (by decide)).2 noParamExampleOut [] (by decide)⟩

/-- **C10**: a question carrying an info block whose comments list is empty
is assigned the out-of-bounds `comments[0]` — the JS `undefined` value —
instead of the documented empty-string default, so (absent a `theme` or
`say` override) the resulting question's explanation is not a string. -/
theorem C10_empty_comments_not_string (d : QuestionData) (i : InfoBlock)
    (q : Question) (w : List String) (h : convertQuestion d = some (q, w))
    (hi : d.info = some i) (hc : i.comments = [])
    (hth : specCatParam "theme" d = none) (hsay : specLastSay d.scenario = none) :
    q.explanation = JSVal.undef ∧ ∀ s, q.explanation ≠ JSVal.str s := by
  obtain ⟨hqe, hwe⟩ := convertQuestion_some_eq d q w h
  subst hqe
  have hexp : (specQuestion d).explanation = JSVal.undef := by
    simp [specQuestion, specExplanation, specInfoExplanation, jsIndex, hi, hc, hth, hsay]
  exact ⟨hexp, fun s hcon => by rw [hexp] at hcon; exact JSVal.noConfusion hcon⟩

/-- **C10**: witness instantiating `C10_empty_comments_not_string` at a
concrete question with an empty comments list. -/
theorem C10_witness :
    convertQuestion emptyCommentsExample = some (emptyCommentsExampleOut, []) ∧
    emptyCommentsExampleOut.explanation = JSVal.undef ∧
    emptyCommentsExampleOut.explanation ≠ JSVal.str "" :=
  ⟨by decide,
   (C10_empty_comments_not_string emptyCommentsExample emptyInfo emptyCommentsExampleOut []
      (by decide) rfl rfl (by decide) (by decide)).1,
   (C10_empty_comments_not_string emptyCommentsExample emptyInfo emptyCommentsExampleOut []
      (by decide) rfl rfl (by decide) (by decide)).2 ""⟩

end SiqJson
